import Mathlib

/-!
# Verification of the medical-data aggregation frontend/backend (APP_PRO)

Shallow embedding of the repository's search/aggregation/summarization flow:

* `Val` models JSON values as delivered to the React components.
* `processResults` embeds the per-source post-processing loop of
  `App.handleSearch` (src/unnamed/part_003, third variant, lines 291-298).
* `handleSearchTrace` embeds the full `handleSearch` of the same variant as a
  sequence of observable events (state updates and outbound HTTP requests),
  with the outcomes of the two `fetch` calls as parameters.
* Further definitions embed `SearchBar.handleSubmit` (part_012), the
  Medical-Research `App.handleSearch` (part_001), `ResultsDashboard` tab
  visibility (part_005 first variant, part_007), `SummaryTab` (src/src/
  components/tabs/SummaryTab.js), `ClinicalTrialsTab.groupedTrials`
  (part_009) and the health endpoint (modelled from the spec, the backend
  sources being absent from the snapshot).
-/

set_option autoImplicit false

namespace AppPro

/-- JSON values as seen by the frontend code (parsed `response.json()` data). -/
inductive Val where
  | vNull : Val
  | vBool : Bool → Val
  | vNum : Int → Val
  | vStr : String → Val
  | vArr : List Val → Val
  | vObj : List (String × Val) → Val

/-- JavaScript truthiness of a JSON value: `null`, `false`, `0` and `""` are
falsy; every array and object (even empty) is truthy. -/
def truthy : Val → Bool
  | Val.vNull => false
  | Val.vBool b => b
  | Val.vNum n => n != 0
  | Val.vStr s => s != ""
  | Val.vArr _ => true
  | Val.vObj _ => true

/-- Truthiness of a possibly-undefined value (`undefined` is falsy). -/
def truthyOpt : Option Val → Bool
  | none => false
  | some v => truthy v

/-- Property read `m[k]` on an object's field list: first binding wins. -/
def lookupField : List (String × Val) → String → Option Val
  | [], _ => none
  | (k', v') :: rest, k => if k' = k then some v' else lookupField rest k

/-- Property write `m[k] = v` on an object's field list: replaces an existing
binding in place, otherwise appends the new binding at the end (JS object
insertion-order semantics). -/
def setField : List (String × Val) → String → Val → List (String × Val)
  | [], k, v => [(k, v)]
  | (k', v') :: rest, k, v =>
    if k' = k then (k, v) :: rest else (k', v') :: setField rest k v

/-- `Object.keys` of an object's field list. -/
def keys (m : List (String × Val)) : List String :=
  m.map Prod.fst

/-- Property read `obj.k` on an arbitrary JSON value: a field lookup on
objects, `undefined` (here `none`) on everything else. -/
def objGet (v : Val) (k : String) : Option Val :=
  match v with
  | Val.vObj fields => lookupField fields k
  | _ => none

@[simp] theorem lookupField_nil (k : String) : lookupField [] k = none := rfl

@[simp] theorem keys_nil : keys [] = [] := rfl

theorem lookupField_setField_self (m : List (String × Val)) (k : String) (v : Val) :
    lookupField (setField m k v) k = some v := by
  induction m with
  | nil => simp [setField, lookupField]
  | cons hd tl ih =>
    obtain ⟨k', v'⟩ := hd
    by_cases h : k' = k
    · simp [setField, lookupField, h]
    · simp [setField, lookupField, h, ih]

theorem lookupField_setField_ne (m : List (String × Val)) (k t : String) (v : Val)
    (h : t ≠ k) : lookupField (setField m k v) t = lookupField m t := by
  have h' : ¬ k = t := fun hh => h hh.symm
  induction m with
  | nil => simp [setField, lookupField, h']
  | cons hd tl ih =>
    obtain ⟨k', v'⟩ := hd
    by_cases hk : k' = k
    · subst hk
      simp [setField, lookupField, h']
    · simp [setField, lookupField, hk, ih]

@[simp] theorem keys_cons (k : String) (v : Val) (m : List (String × Val)) :
    keys ((k, v) :: m) = k :: keys m := rfl

theorem mem_keys_iff_lookup (m : List (String × Val)) (t : String) :
    t ∈ keys m ↔ (lookupField m t).isSome := by
  induction m with
  | nil => simp [keys, lookupField]
  | cons hd tl ih =>
    obtain ⟨k', v'⟩ := hd
    by_cases h : k' = t
    · simp [lookupField, h]
    · have h2 : ¬ t = k' := fun hh => h hh.symm
      simp [lookupField, h, h2, ih]

/-- The value the processing loop stores for source `s`:
`data[source] || []` — the server's value when present and truthy, an empty
array otherwise. From src/unnamed/part_003 line 295. -/
def resolveSource (data : List (String × Val)) (s : String) : Val :=
  match lookupField data s with
  | some v => if truthy v then v else Val.vArr []
  | none => Val.vArr []

/-- The `processedData` loop of `App.handleSearch`
(src/unnamed/part_003 lines 291-298):

    const processedData = {};
    sources.forEach(source => {
      processedData[source] = data[source] || [];
    });
-/
def processResults (sources : List String) (data : List (String × Val)) :
    List (String × Val) :=
  sources.foldl (fun acc s => setField acc s (resolveSource data s)) []

theorem lookupField_processResults_aux (data : List (String × Val))
    (sources : List String) (t : String) :
    ∀ acc : List (String × Val),
      lookupField (sources.foldl (fun acc s => setField acc s (resolveSource data s)) acc) t
        = if t ∈ sources then some (resolveSource data t) else lookupField acc t := by
  induction sources with
  | nil => intro acc; simp
  | cons s rest ih =>
    intro acc
    rw [List.foldl_cons, ih]
    by_cases hr : t ∈ rest
    · simp [hr]
    · by_cases hs : t = s
      · subst hs
        simp [hr, lookupField_setField_self]
      · simp [hr, hs, lookupField_setField_ne _ _ _ _ hs]

theorem lookupField_processResults (sources : List String)
    (data : List (String × Val)) (t : String) :
    lookupField (processResults sources data) t
      = if t ∈ sources then some (resolveSource data t) else none := by
  rw [processResults, lookupField_processResults_aux]
  rfl

theorem mem_keys_processResults (sources : List String)
    (data : List (String × Val)) (t : String) :
    t ∈ keys (processResults sources data) ↔ t ∈ sources := by
  rw [mem_keys_iff_lookup, lookupField_processResults]
  by_cases h : t ∈ sources <;> simp [h]

/-! ## Event-trace embedding of `App.handleSearch`
(src/unnamed/part_003, third variant, lines 262-336). -/

/-- Body of the `POST /api/search` request (part_003 lines 277-281). -/
structure SearchBody where
  query : String
  type : String
  sources : List String
deriving DecidableEq

/-- Body of the `POST /api/summarize` request (part_003 lines 308-312): the
`data` field is the raw object received from the search response. -/
structure SummarizeBody where
  query : String
  type : String
  data : List (String × Val)

/-- Observable actions of `handleSearch`: React state updates and outbound
HTTP requests, in program order. -/
inductive Event where
  | loadingSet : Bool → Event
  | errorSet : Option String → Event
  | resultsSet : Option (List (String × Val)) → Event
  | summarySet : Option Val → Event
  | searchIssued : SearchBody → Event
  | searchReceived : List (String × Val) → Event
  | summarizeIssued : SummarizeBody → Event

/-- Outcome of the `fetch` to `/api/search`: a 2xx response whose JSON body is
the given object, a non-ok response with the given status, or a thrown
network/parse error with the given message. -/
inductive SearchOutcome where
  | ok : List (String × Val) → SearchOutcome
  | notOk : Nat → SearchOutcome
  | threw : String → SearchOutcome

/-- Outcome of the `fetch` to `/api/summarize`. -/
inductive SummarizeOutcome where
  | ok : Val → SummarizeOutcome
  | notOk : SummarizeOutcome
  | threw : String → SummarizeOutcome

/-- The summary value stored for each summarize outcome
(part_003 lines 315-326): `summaryData || {}` on success,
`{error: 'Failed to generate summary'}` on a non-ok response, and
`{error: err.message}` when the call throws. -/
def summaryStored : SummarizeOutcome → Val
  | SummarizeOutcome.ok sd => if truthy sd then sd else Val.vObj []
  | SummarizeOutcome.notOk =>
      Val.vObj [("error", Val.vStr "Failed to generate summary")]
  | SummarizeOutcome.threw m => Val.vObj [("error", Val.vStr m)]

/-- The informational summary stored when the search response carries no data
(part_003 line 328). -/
def noDataSummary : Val :=
  Val.vObj [("message", Val.vStr "No data available for summarization")]

/-- Trace of `App.handleSearch` (src/unnamed/part_003, third variant,
lines 262-336), sequentialized along the `await` points:

1. `setLoading(true); setError(null); setResults(null); setSummary(null)`;
2. the search `fetch` is issued; on a non-ok response an error is thrown and
   caught by the outer `catch` (`setError`), as it is when the fetch throws;
3. on success the body is read, `processedData` is built and stored;
4. if the received object is non-empty, one summarize `fetch` is issued and
   its outcome stored via `summaryStored`; otherwise summarization is
   skipped and `noDataSummary` stored;
5. `finally`: `setLoading(false)`.

The received body is modelled as a JSON object (the backend responds with an
object keyed by source), so `data && typeof data === 'object' &&
Object.keys(data).length > 0` becomes `d ≠ []`. -/
def handleSearchTrace (q ty : String) (sources : List String)
    (searchOut : SearchOutcome) (summOut : SummarizeOutcome) : List Event :=
  [Event.loadingSet true, Event.errorSet none, Event.resultsSet none,
   Event.summarySet none, Event.searchIssued ⟨q, ty, sources⟩] ++
  (match searchOut with
   | SearchOutcome.threw m => [Event.errorSet (some m)]
   | SearchOutcome.notOk st =>
       [Event.errorSet (some ("Search failed with status: " ++ toString st))]
   | SearchOutcome.ok d =>
       [Event.searchReceived d,
        Event.resultsSet (some (processResults sources d))] ++
       (match d with
        | [] => [Event.summarySet (some noDataSummary)]
        | _ :: _ =>
          [Event.summarizeIssued ⟨q, ty, d⟩,
           Event.summarySet (some (summaryStored summOut))])) ++
  [Event.loadingSet false]

/-- The component state touched by `handleSearch`. -/
structure AppState where
  loading : Bool
  error : Option String
  results : Option (List (String × Val))
  summary : Option Val

/-- Effect of one event on the component state (request-issuing events do not
modify state). -/
def applyEvent (st : AppState) : Event → AppState
  | Event.loadingSet b => { st with loading := b }
  | Event.errorSet e => { st with error := e }
  | Event.resultsSet r => { st with results := r }
  | Event.summarySet s => { st with summary := s }
  | Event.searchIssued _ => st
  | Event.searchReceived _ => st
  | Event.summarizeIssued _ => st

/-- Final component state after `handleSearch` runs to completion. -/
def runHandleSearch (q ty : String) (sources : List String)
    (searchOut : SearchOutcome) (summOut : SummarizeOutcome)
    (st : AppState) : AppState :=
  (handleSearchTrace q ty sources searchOut summOut).foldl applyEvent st

/-- Recognizer for summarize-request events. -/
def isSummarizeIssued : Event → Bool
  | Event.summarizeIssued _ => true
  | _ => false

/-- Recognizer for search-request events. -/
def isSearchIssued : Event → Bool
  | Event.searchIssued _ => true
  | _ => false

/-- Number of summarize requests issued during one `handleSearch` run. -/
def summarizeCount (tr : List Event) : Nat :=
  (tr.filter isSummarizeIssued).length

/-! ## `SearchBar.handleSubmit` (src/unnamed/part_012 lines 9-17) and the
Medical-Research `App.handleSearch` (src/unnamed/part_001 lines 31-68). -/

/-- JavaScript `s.trim()`: strip leading and trailing whitespace. -/
def jsTrim (s : String) : String :=
  String.mk
    (((s.toList.dropWhile Char.isWhitespace).reverse.dropWhile
        Char.isWhitespace).reverse)

/-- Calls to `onSearch(query, searchType)` made by `handleSubmit`
(src/unnamed/part_012 lines 9-17): none unless `query.trim()` is truthy
(a non-empty trimmed string). -/
def handleSubmitCalls (query searchType : String) : List (String × String) :=
  if jsTrim query = "" then [] else [(query, searchType)]

/-- State of the Medical-Research `App` (src/unnamed/part_001). -/
structure MRState where
  results : Option Val
  isLoading : Bool
  error : Option String

/-- Failure modes of the axios search call in part_001 lines 51-64. -/
inductive AxiosFailure where
  | timeout : AxiosFailure
  | responseWith : Option String → AxiosFailure
  | requestNoResponse : AxiosFailure
  | setupError : AxiosFailure
  | nonAxios : AxiosFailure

/-- The error message stored by the catch chain of part_001 lines 51-64. -/
def axiosErrorMessage : AxiosFailure → String
  | AxiosFailure.timeout => "Request timed out. Please try again."
  | AxiosFailure.responseWith ef =>
      match ef with
      | some s => if s = "" then "An error occurred while fetching results" else s
      | none => "An error occurred while fetching results"
  | AxiosFailure.requestNoResponse =>
      "No response received from server. Please check your connection."
  | AxiosFailure.setupError => "An error occurred while setting up the request."
  | AxiosFailure.nonAxios => "An unexpected error occurred."

/-- `App.handleSearch` of src/unnamed/part_001 lines 31-68, returning the new
state and the list of outbound search requests (each a request body query
string). A blank query is rejected before any request:

    if (!searchQuery.trim()) {
      setError('Please enter a search term');
      return;
    }

On a successful call, `setResults(response.data.data)` stores the `data`
field of the response body. -/
def handleSearchMR (searchQuery : String) (out : Val ⊕ AxiosFailure)
    (st : MRState) : MRState × List String :=
  if jsTrim searchQuery = "" then
    ({ st with error := some "Please enter a search term" }, [])
  else
    let st1 := { st with isLoading := true, error := none }
    match out with
    | Sum.inl body =>
        ({ st1 with results := objGet body "data", isLoading := false },
         [searchQuery])
    | Sum.inr f =>
        ({ st1 with error := some (axiosErrorMessage f), isLoading := false },
         [searchQuery])

/-! ## `SummaryTab` (src/src/components/tabs/SummaryTab.js lines 3-19). -/

/-- The non-fatal views `SummaryTab` can return: the "No summary available."
placeholder, the inline error message, or the summary content grid. -/
inductive SummaryView where
  | noSummary : SummaryView
  | errorView : Val → SummaryView
  | content : Val → SummaryView

/-- JavaScript `typeof v === 'object'` (true for objects, arrays and null). -/
def isObjectType : Val → Bool
  | Val.vNull => true
  | Val.vArr _ => true
  | Val.vObj _ => true
  | _ => false

/-- `Object.keys(v).length` for the values that can reach the length check in
`SummaryTab` (non-object, non-array values are short-circuited away by the
preceding `typeof` test). -/
def objKeysLen : Val → Nat
  | Val.vObj fields => fields.length
  | Val.vArr items => items.length
  | _ => 0

/-- `SummaryTab` (src/src/components/tabs/SummaryTab.js lines 3-19). The
`summary` prop defaults to `{}` when the prop is `undefined` (here `none`);
the JS default does not apply to `null`.

    if (!summary || typeof summary !== 'object' || summary === null
        || Object.keys(summary || {}).length === 0) { ... 'No summary available.' }
    if (summary.error) { ... inline error ... }
-/
def renderSummaryTab (summary : Option Val) : SummaryView :=
  let s := match summary with
    | none => Val.vObj []
    | some v => v
  if !truthy s || !isObjectType s || objKeysLen s == 0 then
    SummaryView.noSummary
  else if truthyOpt (objGet s "error") then
    SummaryView.errorView ((objGet s "error").getD Val.vNull)
  else
    SummaryView.content s

/-- True exactly on the two non-fatal placeholder views of `SummaryTab`. -/
def isPlaceholderView : SummaryView → Bool
  | SummaryView.noSummary => true
  | SummaryView.errorView _ => true
  | SummaryView.content _ => false

/-! ## `ResultsDashboard` tab visibility (src/unnamed/part_005, first variant,
lines 16-26; src/unnamed/part_007 line 29). -/

/-- Visibility of the tab of source `s` in the first `ResultsDashboard`
variant (part_005 lines 18-23): `results.s && !results.s.error`. -/
def srcTabVisible (results : List (String × Val)) (s : String) : Bool :=
  truthyOpt (lookupField results s) &&
    !truthyOpt ((lookupField results s).bind (fun v => objGet v "error"))

/-- Visibility of the summary tab (part_005 line 17):
`!!summary && !summary.error`. -/
def summaryTabVisible (summary : Option Val) : Bool :=
  truthyOpt summary && !truthyOpt (summary.bind (fun v => objGet v "error"))

/-- The visibility predicate of the `tabs` array in the first
`ResultsDashboard` variant (part_005 lines 16-24): the summary tab checks the
summary prop; the SEC tab is additionally gated on `searchType === 'drug'`
(line 22); every other tab checks only its own source's entry. -/
def tabVisible (results : List (String × Val)) (summary : Option Val)
    (searchType : String) (tab : String) : Bool :=
  if tab = "summary" then summaryTabVisible summary
  else if tab = "sec" then (searchType == "drug") && srcTabVisible results "sec"
  else srcTabVisible results tab

/-- The `availableTabs` list (part_005 line 26): the fixed tab order filtered
by visibility. -/
def availableTabs (results : List (String × Val)) (summary : Option Val)
    (searchType : String) : List String :=
  ["summary", "fda", "clinical_trials", "ncbi", "news", "sec", "snomed"].filter
    (tabVisible results summary searchType)

/-- `hasSEC` of the part_007 `ResultsDashboard` variant (line 29):
`searchType === 'drug' && results.sec && Array.isArray(results.sec) &&
results.sec.length > 0`. The truthiness conjunct is subsumed by the
array-shape test. -/
def hasSEC (results : List (String × Val)) (searchType : String) : Bool :=
  (searchType == "drug") &&
    (match lookupField results "sec" with
     | some (Val.vArr (_ :: _)) => true
     | _ => false)

/-! ## `ClinicalTrialsTab.groupedTrials` (src/unnamed/part_009 lines 395-422). -/

/-- JavaScript `s.includes(sub)`: substring containment. -/
def strIncludes (s sub : String) : Bool :=
  decide (sub.toList <:+: s.toList)

/-- A clinical-trial record as consumed by the grouping logic; only
`overallStatus` drives the grouping. -/
structure Trial where
  overallStatus : Option String
  briefTitle : Option String

/-- JavaScript `s.toLowerCase()`: characterwise lowering. -/
def strToLower (s : String) : String :=
  String.mk (s.toList.map Char.toLower)

/-- `trial.overallStatus?.toLowerCase() || ''` (part_009 line 408): missing
status falls back to the empty string. -/
def trialStatus (t : Trial) : String :=
  strToLower (t.overallStatus.getD "")

/-- The group a trial is pushed into besides `all`. -/
inductive TrialGroup where
  | recruiting : TrialGroup
  | active : TrialGroup
  | completed : TrialGroup
  | other : TrialGroup
deriving DecidableEq

/-- The if/else-if chain of part_009 lines 410-418, in priority order:
`includes('recruiting')`, then `includes('active') || status === 'ongoing' ||
includes('enrolling')`, then `status === 'completed'`, else `other`. -/
def classifyTrial (t : Trial) : TrialGroup :=
  let status := trialStatus t
  if strIncludes status "recruiting" then TrialGroup.recruiting
  else if strIncludes status "active" || status == "ongoing"
      || strIncludes status "enrolling" then TrialGroup.active
  else if status == "completed" then TrialGroup.completed
  else TrialGroup.other

/-- The five lists built by `groupedTrials`. -/
structure GroupedTrials where
  recruiting : List Trial
  active : List Trial
  completed : List Trial
  other : List Trial
  all : List Trial

/-- One step of the `forEach` body (part_009 lines 404-419): the trial is
pushed onto `all` and onto the group chosen by the status chain. -/
def groupStep (g : GroupedTrials) (t : Trial) : GroupedTrials :=
  let g1 := { g with all := g.all ++ [t] }
  match classifyTrial t with
  | TrialGroup.recruiting => { g1 with recruiting := g1.recruiting ++ [t] }
  | TrialGroup.active => { g1 with active := g1.active ++ [t] }
  | TrialGroup.completed => { g1 with completed := g1.completed ++ [t] }
  | TrialGroup.other => { g1 with other := g1.other ++ [t] }

/-- `groupedTrials` (part_009 lines 395-422): fold of the `forEach` body over
the trial list, starting from five empty groups. -/
def groupedTrials (trials : List Trial) : GroupedTrials :=
  trials.foldl groupStep ⟨[], [], [], [], []⟩

/-! ## Health endpoint and backend fan-out/merge, modelled from the spec
(the backend sources `backend/src/app.py` etc. are not in the snapshot; only
the backend README documents these and `src/src/services/api.ts` calls them). -/

/-- Digit character of `n` for `n < 10` (and a digit in any case). -/
def digitChar (n : Nat) : Char :=
  if n = 0 then '0' else if n = 1 then '1' else if n = 2 then '2'
  else if n = 3 then '3' else if n = 4 then '4' else if n = 5 then '5'
  else if n = 6 then '6' else if n = 7 then '7' else if n = 8 then '8'
  else '9'

/-- Two-digit zero-padded decimal rendering. -/
def pad2 (n : Nat) : List Char :=
  [digitChar (n / 10 % 10), digitChar (n % 10)]

/-- Four-digit zero-padded decimal rendering. -/
def pad4 (n : Nat) : List Char :=
  [digitChar (n / 1000 % 10), digitChar (n / 100 % 10),
   digitChar (n / 10 % 10), digitChar (n % 10)]

/-- Broken-down UTC time used to render the health timestamp. -/
structure DateTimeParts where
  year : Nat
  month : Nat
  day : Nat
  hour : Nat
  minute : Nat
  second : Nat

/-- `YYYY-MM-DDTHH:MM:SSZ` rendering of a broken-down time. -/
def isoTimestamp (t : DateTimeParts) : String :=
  String.mk (pad4 t.year ++ '-' :: pad2 t.month ++ '-' :: pad2 t.day
    ++ 'T' :: pad2 t.hour ++ ':' :: pad2 t.minute ++ ':' :: pad2 t.second
    ++ ['Z'])

/-- Shape check for `YYYY-MM-DDTHH:MM:SSZ` ISO-8601 timestamps. -/
def isIso8601 (s : String) : Bool :=
  match s.toList with
  | [y1, y2, y3, y4, h1, m1, m2, h2, d1, d2, tt, hh1, hh2, c1, mi1, mi2, c2,
     s1, s2, z] =>
      y1.isDigit && y2.isDigit && y3.isDigit && y4.isDigit && h1 == '-'
        && m1.isDigit && m2.isDigit && h2 == '-' && d1.isDigit && d2.isDigit
        && tt == 'T' && hh1.isDigit && hh2.isDigit && c1 == ':'
        && mi1.isDigit && mi2.isDigit && c2 == ':' && s1.isDigit && s2.isDigit
        && z == 'Z'
  | _ => false

/-- Body of the `GET /health` response. -/
structure HealthResponse where
  status : String
  timestamp : String

/-- Modelled from the spec: the backend `GET /health` handler. The backend
application sources are absent from the snapshot (only the backend README in
src/unnamed/part_000 documents the endpoint and `checkHealth` in
src/src/services/api.ts calls it). Per spec section 6 it "returns
`{ status: "healthy", timestamp: ISO8601 }`, no side effects"; the server
state is passed through unchanged. -/
def healthHandler {σ : Type} (st : σ) (now : DateTimeParts) :
    σ × HealthResponse :=
  (st, ⟨"healthy", isoTimestamp now⟩)

/-- `checkHealth` of src/src/services/api.ts lines 25-35: passes a successful
response body through; on an axios failure it rethrows
`err.response?.data?.error || 'Health check failed'`. -/
def checkHealth : Except (Option String) HealthResponse →
    Except String HealthResponse
  | Except.ok r => Except.ok r
  | Except.error serverErr =>
      Except.error
        (match serverErr with
         | some s => if s = "" then "Health check failed" else s
         | none => "Health check failed")

/-- Modelled from the spec: the outcome of one provider adapter call
(spec section 4.1: on success `status: "ok"` with normalized items; on HTTP
failure, timeout or malformed body `status: "error"` with a message, never
thrown past the adapter boundary). -/
inductive AdapterOutcome where
  | ok : List Val → AdapterOutcome
  | fail : String → AdapterOutcome

/-- Modelled from the spec: a per-source result record
(spec section 3, SourceResult). -/
structure SourceResult where
  status : String
  items : List Val
  errorMessage : Option String

/-- Modelled from the spec: how an adapter outcome is tagged into a
SourceResult (spec sections 4.1 and 4.2). -/
def adapterToResult : AdapterOutcome → SourceResult
  | AdapterOutcome.ok items => ⟨"ok", items, none⟩
  | AdapterOutcome.fail m => ⟨"error", [], some m⟩

/-- Lookup in a merged result list, first binding wins. -/
def lookupSR : List (String × SourceResult) → String → Option SourceResult
  | [], _ => none
  | (k', v') :: rest, k => if k' = k then some v' else lookupSR rest k

/-- Modelled from the spec: the fan-out orchestrator composed with the result
merger (spec sections 4.2 and 4.3): every requested source is invoked, each
outcome is tagged independently, and no error-status result is dropped. -/
def runMerge (sources : List String) (adapters : String → AdapterOutcome) :
    List (String × SourceResult) :=
  sources.map (fun s => (s, adapterToResult (adapters s)))

/-! ## Supporting lemmas -/

theorem digitChar_isDigit (n : Nat) : (digitChar n).isDigit = true := by
  unfold digitChar
  split_ifs <;> rfl

theorem isIso8601_isoTimestamp (t : DateTimeParts) :
    isIso8601 (isoTimestamp t) = true := by
  simp [isIso8601, isoTimestamp, pad4, pad2, String.toList, digitChar_isDigit]

theorem lookupSR_runMerge (sources : List String)
    (adapters : String → AdapterOutcome) (s : String) (hs : s ∈ sources) :
    lookupSR (runMerge sources adapters) s
      = some (adapterToResult (adapters s)) := by
  induction sources with
  | nil => cases hs
  | cons a rest ih =>
    rcases List.mem_cons.mp hs with h | h
    · subst h
      simp [runMerge, lookupSR]
    · by_cases ha : a = s
      · subst ha
        simp [runMerge, lookupSR]
      · simpa [runMerge, lookupSR, ha] using ih h

/-- The trials that land in group `g`. -/
def groupFilter (g : TrialGroup) (trials : List Trial) : List Trial :=
  trials.filter (fun t => classifyTrial t == g)

theorem groupedTrials_go (trials : List Trial) :
    ∀ g0 : GroupedTrials,
      (trials.foldl groupStep g0).all = g0.all ++ trials ∧
      (trials.foldl groupStep g0).recruiting
        = g0.recruiting ++ groupFilter TrialGroup.recruiting trials ∧
      (trials.foldl groupStep g0).active
        = g0.active ++ groupFilter TrialGroup.active trials ∧
      (trials.foldl groupStep g0).completed
        = g0.completed ++ groupFilter TrialGroup.completed trials ∧
      (trials.foldl groupStep g0).other
        = g0.other ++ groupFilter TrialGroup.other trials := by
  induction trials with
  | nil => intro g0; simp [groupFilter]
  | cons t ts ih =>
    intro g0
    rw [List.foldl_cons]
    obtain ⟨ha, hr, hac, hc, ho⟩ := ih (groupStep g0 t)
    rw [ha, hr, hac, hc, ho]
    rcases hcl : classifyTrial t <;>
      simp +decide [groupStep, hcl, groupFilter, List.filter_cons]

theorem groupFilter_length_sum (trials : List Trial) :
    (groupFilter TrialGroup.recruiting trials).length
      + (groupFilter TrialGroup.active trials).length
      + (groupFilter TrialGroup.completed trials).length
      + (groupFilter TrialGroup.other trials).length
      = trials.length := by
  induction trials with
  | nil => rfl
  | cons t ts ih =>
    rcases hcl : classifyTrial t <;>
      simp +decide [groupFilter, List.filter_cons, hcl] at ih ⊢ <;> omega

/-! ## Claim theorems -/

/-- Claim C1 (corrected): for every query and selected sources list, the
results object shown to the client has exactly the requested sources as keys,
each bound to `data[source] || []`: the server's value when that value is
truthy, and an empty array when the key is absent or its value is falsy
(the claim as stated, which promises the server's value whenever the key is
present, fails for a present-but-falsy value such as JSON `null`). -/
theorem claim_C1_results_keyed_by_sources (sources : List String)
    (data : List (String × Val)) (s t : String) (hs : s ∈ sources) :
    (t ∈ keys (processResults sources data) ↔ t ∈ sources) ∧
    lookupField (processResults sources data) s = some (resolveSource data s) := by
  refine ⟨mem_keys_processResults sources data t, ?_⟩
  rw [lookupField_processResults]
  simp [hs]

/-- Claim C1 counterexample: with `sources = ["fda"]` and a server response
binding `"fda"` to JSON `null`, the processed results bind `"fda"` to an
empty array, not to the server's value `null`. -/
theorem claim_C1_counterexample :
    lookupField [("fda", Val.vNull)] "fda" = some Val.vNull ∧
    lookupField (processResults ["fda"] [("fda", Val.vNull)]) "fda"
      = some (Val.vArr []) ∧
    Val.vArr [] ≠ Val.vNull :=
  ⟨rfl, rfl, fun h => Val.noConfusion h⟩

/-- Claim C1 witness: concrete instantiation of the amended claim. -/
theorem claim_C1_results_keyed_by_sources_witness :
    "fda" ∈ (["fda", "news"] : List String) ∧
    (("news" ∈ keys (processResults ["fda", "news"]
          [("news", Val.vArr [Val.vStr "n"])])
        ↔ "news" ∈ (["fda", "news"] : List String)) ∧
      lookupField (processResults ["fda", "news"]
          [("news", Val.vArr [Val.vStr "n"])]) "fda"
        = some (resolveSource [("news", Val.vArr [Val.vStr "n"])] "fda")) :=
  ⟨by simp, claim_C1_results_keyed_by_sources _ _ _ _ (by simp)⟩

/-- Claim C2 (confirmed): a query whose text trims to the empty string issues
no outbound request and leaves the results state unchanged, reporting only the
validation error (part_001 lines 32-35); `SearchBar.handleSubmit` (part_012)
does not even invoke `onSearch` for such a query, so the App state including
the summary is untouched; a non-blank query is the only kind that proceeds to
the search request. -/
theorem claim_C2_blank_query_no_fanout (q ty : String)
    (out : Val ⊕ AxiosFailure) (st : MRState) :
    (jsTrim q = "" →
      handleSubmitCalls q ty = [] ∧
      (handleSearchMR q out st).2 = [] ∧
      (handleSearchMR q out st).1.results = st.results ∧
      (handleSearchMR q out st).1.isLoading = st.isLoading ∧
      (handleSearchMR q out st).1.error = some "Please enter a search term") ∧
    (jsTrim q ≠ "" →
      handleSubmitCalls q ty = [(q, ty)] ∧
      (handleSearchMR q out st).2 = [q]) := by
  constructor
  · intro h
    simp [handleSubmitCalls, handleSearchMR, h]
  · intro h
    refine ⟨by simp [handleSubmitCalls, h], ?_⟩
    rcases out with body | f <;> simp [handleSearchMR, h]

/-- Claim C2 witness: a whitespace-only query issues nothing and reports the
validation error. -/
theorem claim_C2_blank_query_no_fanout_witness :
    jsTrim "   " = "" ∧
    (handleSubmitCalls "   " "drug" = [] ∧
      (handleSearchMR "   " (Sum.inl (Val.vObj []))
          ⟨none, false, none⟩).2 = [] ∧
      (handleSearchMR "   " (Sum.inl (Val.vObj []))
          ⟨none, false, none⟩).1.results
        = (⟨none, false, none⟩ : MRState).results ∧
      (handleSearchMR "   " (Sum.inl (Val.vObj []))
          ⟨none, false, none⟩).1.isLoading
        = (⟨none, false, none⟩ : MRState).isLoading ∧
      (handleSearchMR "   " (Sum.inl (Val.vObj []))
          ⟨none, false, none⟩).1.error
        = some "Please enter a search term") :=
  ⟨by decide, (claim_C2_blank_query_no_fanout "   " "drug" _ _).1 (by decide)⟩

/-- Claim C3 (confirmed): in every `handleSearch` run, any summarize request
occurs strictly after the search request was issued, its response fully
received, and the processed aggregate stored; no search fan-out follows it,
and its body carries exactly the complete received aggregate data. When the
search call does not succeed, no summarize request is issued at all. -/
theorem claim_C3_summarize_strictly_after_search (q ty : String)
    (sources : List String) (searchOut : SearchOutcome)
    (summOut : SummarizeOutcome) :
    (∀ d, searchOut = SearchOutcome.ok d →
      ∃ rest,
        handleSearchTrace q ty sources searchOut summOut
          = [Event.loadingSet true, Event.errorSet none, Event.resultsSet none,
             Event.summarySet none, Event.searchIssued ⟨q, ty, sources⟩,
             Event.searchReceived d,
             Event.resultsSet (some (processResults sources d))] ++ rest ∧
        (∀ e ∈ rest, isSearchIssued e = false) ∧
        (∀ b, Event.summarizeIssued b ∈ rest → b.data = d) ∧
        (∀ b, Event.summarizeIssued b
            ∈ handleSearchTrace q ty sources searchOut summOut
          → Event.summarizeIssued b ∈ rest)) ∧
    ((∀ d, searchOut ≠ SearchOutcome.ok d) →
      ∀ b, Event.summarizeIssued b
        ∉ handleSearchTrace q ty sources searchOut summOut) := by
  constructor
  · intro d hd
    subst hd
    cases d with
    | nil =>
      refine ⟨[Event.summarySet (some noDataSummary), Event.loadingSet false],
        rfl, ?_, ?_, ?_⟩
      · intro e he
        rcases List.mem_cons.mp he with rfl | he'
        · rfl
        · rcases List.mem_cons.mp he' with rfl | he''
          · rfl
          · cases he''
      · intro b hb
        simp [isSummarizeIssued] at hb
      · intro b hb
        simp [handleSearchTrace] at hb
    | cons x xs =>
      refine ⟨[Event.summarizeIssued ⟨q, ty, x :: xs⟩,
        Event.summarySet (some (summaryStored summOut)),
        Event.loadingSet false], rfl, ?_, ?_, ?_⟩
      · intro e he
        rcases List.mem_cons.mp he with rfl | he'
        · rfl
        · rcases List.mem_cons.mp he' with rfl | he''
          · rfl
          · rcases List.mem_cons.mp he'' with rfl | he'''
            · rfl
            · cases he'''
      · intro b hb
        simp at hb
        subst hb
        rfl
      · intro b hb
        simp [handleSearchTrace] at hb ⊢
        exact hb
  · intro hne b hb
    cases searchOut with
    | ok d => exact absurd rfl (hne d)
    | notOk st => simp [handleSearchTrace] at hb
    | threw m => simp [handleSearchTrace] at hb

/-- Claim C3 witness: concrete successful run with a non-empty aggregate. -/
theorem claim_C3_summarize_strictly_after_search_witness :
    SearchOutcome.ok [("fda", Val.vArr [])]
        = SearchOutcome.ok [("fda", Val.vArr [])] ∧
    (∃ rest,
      handleSearchTrace "aspirin" "drug" ["fda"]
          (SearchOutcome.ok [("fda", Val.vArr [])])
          (SummarizeOutcome.ok (Val.vStr "sum"))
        = [Event.loadingSet true, Event.errorSet none, Event.resultsSet none,
           Event.summarySet none,
           Event.searchIssued ⟨"aspirin", "drug", ["fda"]⟩,
           Event.searchReceived [("fda", Val.vArr [])],
           Event.resultsSet
             (some (processResults ["fda"] [("fda", Val.vArr [])]))] ++ rest ∧
      (∀ e ∈ rest, isSearchIssued e = false) ∧
      (∀ b, Event.summarizeIssued b ∈ rest → b.data = [("fda", Val.vArr [])]) ∧
      (∀ b, Event.summarizeIssued b
          ∈ handleSearchTrace "aspirin" "drug" ["fda"]
              (SearchOutcome.ok [("fda", Val.vArr [])])
              (SummarizeOutcome.ok (Val.vStr "sum"))
        → Event.summarizeIssued b ∈ rest)) :=
  ⟨rfl, (claim_C3_summarize_strictly_after_search "aspirin" "drug" ["fda"]
      (SearchOutcome.ok [("fda", Val.vArr [])])
      (SummarizeOutcome.ok (Val.vStr "sum"))).1 _ rfl⟩

/-- Recognizer for failed summarize outcomes (non-ok response or thrown). -/
def isSummFailure : SummarizeOutcome → Bool
  | SummarizeOutcome.ok _ => false
  | SummarizeOutcome.notOk => true
  | SummarizeOutcome.threw _ => true

/-- Claim C4 (confirmed): when the search succeeds with a non-empty body and
the summarize call fails (non-ok or thrown), the stored results are exactly
the processed aggregate built from the search response, the summary is an
`{error: message}` object, no exception escapes (the page error stays null)
and loading terminates. -/
theorem claim_C4_summary_failure_isolated (q ty : String)
    (sources : List String) (d : List (String × Val))
    (summOut : SummarizeOutcome) (st : AppState)
    (hd : d ≠ []) (hf : isSummFailure summOut = true) :
    (runHandleSearch q ty sources (SearchOutcome.ok d) summOut st).results
        = some (processResults sources d) ∧
    (∃ m, (runHandleSearch q ty sources (SearchOutcome.ok d) summOut st).summary
        = some (Val.vObj [("error", Val.vStr m)])) ∧
    (runHandleSearch q ty sources (SearchOutcome.ok d) summOut st).error = none ∧
    (runHandleSearch q ty sources (SearchOutcome.ok d) summOut st).loading
      = false := by
  rcases d with _ | ⟨x, xs⟩
  · exact absurd rfl hd
  · cases summOut with
    | ok sd => simp [isSummFailure] at hf
    | notOk =>
      exact ⟨rfl, ⟨"Failed to generate summary", rfl⟩, rfl, rfl⟩
    | threw m =>
      exact ⟨rfl, ⟨m, rfl⟩, rfl, rfl⟩

/-- Claim C4 witness: concrete run whose summarize call returns non-ok. -/
theorem claim_C4_summary_failure_isolated_witness :
    ([("fda", Val.vArr [])] : List (String × Val)) ≠ [] ∧
    isSummFailure SummarizeOutcome.notOk = true ∧
    ((runHandleSearch "aspirin" "drug" ["fda"]
          (SearchOutcome.ok [("fda", Val.vArr [])]) SummarizeOutcome.notOk
          ⟨false, none, none, none⟩).results
        = some (processResults ["fda"] [("fda", Val.vArr [])]) ∧
      (∃ m, (runHandleSearch "aspirin" "drug" ["fda"]
          (SearchOutcome.ok [("fda", Val.vArr [])]) SummarizeOutcome.notOk
          ⟨false, none, none, none⟩).summary
        = some (Val.vObj [("error", Val.vStr m)])) ∧
      (runHandleSearch "aspirin" "drug" ["fda"]
          (SearchOutcome.ok [("fda", Val.vArr [])]) SummarizeOutcome.notOk
          ⟨false, none, none, none⟩).error = none ∧
      (runHandleSearch "aspirin" "drug" ["fda"]
          (SearchOutcome.ok [("fda", Val.vArr [])]) SummarizeOutcome.notOk
          ⟨false, none, none, none⟩).loading = false) :=
  ⟨by simp, rfl,
    claim_C4_summary_failure_isolated "aspirin" "drug" ["fda"]
      [("fda", Val.vArr [])] SummarizeOutcome.notOk
      ⟨false, none, none, none⟩ (by simp) rfl⟩

/-- Claim C5 (confirmed): when the aggregate data received from the search is
an empty object, the summarizer stage is skipped entirely (zero summarize
requests), the summary is set to the informational no-data object and no
error escapes; a non-empty aggregate triggers exactly one summarize call. -/
theorem claim_C5_empty_data_skips_summarization (q ty : String)
    (sources : List String) (summOut : SummarizeOutcome) (st : AppState)
    (d : List (String × Val)) :
    (d = [] →
      summarizeCount
          (handleSearchTrace q ty sources (SearchOutcome.ok d) summOut) = 0 ∧
      (runHandleSearch q ty sources (SearchOutcome.ok d) summOut st).summary
        = some noDataSummary ∧
      (runHandleSearch q ty sources (SearchOutcome.ok d) summOut st).error
        = none) ∧
    (d ≠ [] →
      summarizeCount
          (handleSearchTrace q ty sources (SearchOutcome.ok d) summOut) = 1) := by
  constructor
  · intro h
    subst h
    exact ⟨rfl, rfl, rfl⟩
  · intro h
    rcases d with _ | ⟨x, xs⟩
    · exact absurd rfl h
    · rfl

/-- Claim C5 witness: an empty received aggregate skips summarization, a
non-empty one issues exactly one summarize request. -/
theorem claim_C5_empty_data_skips_summarization_witness :
    (([] : List (String × Val)) = [] ∧
      (summarizeCount (handleSearchTrace "aspirin" "drug" []
          (SearchOutcome.ok []) SummarizeOutcome.notOk) = 0 ∧
        (runHandleSearch "aspirin" "drug" [] (SearchOutcome.ok [])
            SummarizeOutcome.notOk ⟨false, none, none, none⟩).summary
          = some noDataSummary ∧
        (runHandleSearch "aspirin" "drug" [] (SearchOutcome.ok [])
            SummarizeOutcome.notOk ⟨false, none, none, none⟩).error
          = none)) ∧
    summarizeCount (handleSearchTrace "aspirin" "drug" ["fda"]
        (SearchOutcome.ok [("fda", Val.vArr [])])
        SummarizeOutcome.notOk) = 1 :=
  ⟨⟨rfl, (claim_C5_empty_data_skips_summarization "aspirin" "drug" []
      SummarizeOutcome.notOk ⟨false, none, none, none⟩ []).1 rfl⟩,
    (claim_C5_empty_data_skips_summarization "aspirin" "drug" ["fda"]
      SummarizeOutcome.notOk ⟨false, none, none, none⟩
      [("fda", Val.vArr [])]).2 (by simp)⟩

/-- Claim C8 (confirmed, spec-modelled): every call to the health endpoint
leaves the server state unchanged and returns a body whose `status` field is
"healthy" and whose `timestamp` field has ISO-8601 shape; the `checkHealth`
client passes a successful body through unchanged. -/
theorem claim_C8_health_check (σ : Type) (st : σ) (now : DateTimeParts)
    (r : HealthResponse) :
    (healthHandler st now).1 = st ∧
    (healthHandler st now).2.status = "healthy" ∧
    isIso8601 (healthHandler st now).2.timestamp = true ∧
    checkHealth (Except.ok r) = Except.ok r :=
  ⟨rfl, rfl, isIso8601_isoTimestamp now, rfl⟩

/-- Claim C10 (confirmed): `groupedTrials` of a non-empty trial list places
every trial in `all` (in order) and in exactly one of the four status groups,
chosen by the priority chain on the lowercased `overallStatus` (a missing
status classifies as `other`), so the four group sizes sum to the length of
`all`, which equals the input length. -/
theorem claim_C10_trial_grouping_partition (trials : List Trial)
    (t0 : Trial) (hne : trials ≠ []) (ht0 : t0.overallStatus = none) :
    (groupedTrials trials).all = trials ∧
    (groupedTrials trials).recruiting = groupFilter TrialGroup.recruiting trials ∧
    (groupedTrials trials).active = groupFilter TrialGroup.active trials ∧
    (groupedTrials trials).completed = groupFilter TrialGroup.completed trials ∧
    (groupedTrials trials).other = groupFilter TrialGroup.other trials ∧
    (groupedTrials trials).recruiting.length + (groupedTrials trials).active.length
        + (groupedTrials trials).completed.length + (groupedTrials trials).other.length
      = (groupedTrials trials).all.length ∧
    (groupedTrials trials).all.length = trials.length ∧
    classifyTrial t0 = TrialGroup.other := by
  obtain ⟨ha, hr, hac, hc, ho⟩ := groupedTrials_go trials ⟨[], [], [], [], []⟩
  rw [groupedTrials]
  refine ⟨by simpa using ha, by simpa using hr, by simpa using hac,
    by simpa using hc, by simpa using ho, ?_, ?_, ?_⟩
  · rw [ha, hr, hac, hc, ho]
    simpa using groupFilter_length_sum trials
  · rw [ha]; simp
  · have hst : trialStatus t0 = "" := by
      simp only [trialStatus, ht0, Option.getD_none]
      rfl
    simp only [classifyTrial, hst]
    decide

/-- Claim C10 witness: a singleton list whose trial has no status lands in
`other`. -/
theorem claim_C10_trial_grouping_partition_witness :
    ([(⟨none, none⟩ : Trial)] : List Trial) ≠ [] ∧
    (⟨none, none⟩ : Trial).overallStatus = none ∧
    ((groupedTrials [(⟨none, none⟩ : Trial)]).all = [(⟨none, none⟩ : Trial)] ∧
      (groupedTrials [(⟨none, none⟩ : Trial)]).recruiting
        = groupFilter TrialGroup.recruiting [(⟨none, none⟩ : Trial)] ∧
      (groupedTrials [(⟨none, none⟩ : Trial)]).active
        = groupFilter TrialGroup.active [(⟨none, none⟩ : Trial)] ∧
      (groupedTrials [(⟨none, none⟩ : Trial)]).completed
        = groupFilter TrialGroup.completed [(⟨none, none⟩ : Trial)] ∧
      (groupedTrials [(⟨none, none⟩ : Trial)]).other
        = groupFilter TrialGroup.other [(⟨none, none⟩ : Trial)] ∧
      (groupedTrials [(⟨none, none⟩ : Trial)]).recruiting.length
          + (groupedTrials [(⟨none, none⟩ : Trial)]).active.length
          + (groupedTrials [(⟨none, none⟩ : Trial)]).completed.length
          + (groupedTrials [(⟨none, none⟩ : Trial)]).other.length
        = (groupedTrials [(⟨none, none⟩ : Trial)]).all.length ∧
      (groupedTrials [(⟨none, none⟩ : Trial)]).all.length
        = ([(⟨none, none⟩ : Trial)] : List Trial).length ∧
      classifyTrial (⟨none, none⟩ : Trial) = TrialGroup.other) :=
  ⟨by simp, rfl,
    claim_C10_trial_grouping_partition [(⟨none, none⟩ : Trial)]
      (⟨none, none⟩ : Trial) (by simp) rfl⟩

/-- Claim C6 (corrected): a summary that is missing, null, not an object, or
an empty object renders the "No summary available." placeholder; an object
whose error field is truthy renders the inline error view; and the render
function is total, always returning one of the three non-fatal views (the
claim as stated also promises a placeholder for an object carrying a falsy
error field such as an empty string, which instead renders the content
grid). -/
theorem claim_C6_summary_rendering_nonfatal (os : Option Val) :
    (os = none ∨ os = some Val.vNull
        ∨ (∃ v, os = some v ∧ isObjectType v = false)
        ∨ os = some (Val.vObj []) →
      renderSummaryTab os = SummaryView.noSummary) ∧
    (∀ v, os = some v → truthyOpt (objGet v "error") = true →
      renderSummaryTab os
        = SummaryView.errorView ((objGet v "error").getD Val.vNull)) ∧
    (renderSummaryTab os = SummaryView.noSummary
      ∨ renderSummaryTab os
          = SummaryView.errorView
              ((objGet (os.getD (Val.vObj [])) "error").getD Val.vNull)
      ∨ renderSummaryTab os = SummaryView.content (os.getD (Val.vObj []))) := by
  refine ⟨?_, ?_, ?_⟩
  · intro h
    rcases h with rfl | rfl | ⟨v, rfl, hv⟩ | rfl
    · rfl
    · rfl
    · simp [renderSummaryTab, hv]
    · rfl
  · intro v hv herr
    subst hv
    cases v with
    | vObj fields =>
      rcases fields with _ | ⟨f, fs⟩
      · simp [objGet, lookupField, truthyOpt] at herr
      · simp [renderSummaryTab, truthy, isObjectType, objKeysLen, herr]
    | vNull => simp [objGet, truthyOpt] at herr
    | vBool b => simp [objGet, truthyOpt] at herr
    | vNum n => simp [objGet, truthyOpt] at herr
    | vStr s => simp [objGet, truthyOpt] at herr
    | vArr items => simp [objGet, truthyOpt] at herr
  · rcases os with _ | v
    · exact Or.inl rfl
    · cases hb1 : (!truthy v || !isObjectType v || (objKeysLen v == 0)) with
      | true =>
        exact Or.inl (by simp [renderSummaryTab, hb1])
      | false =>
        cases hb2 : truthyOpt (objGet v "error") with
        | true =>
          exact Or.inr (Or.inl (by simp [renderSummaryTab, hb1, hb2]))
        | false =>
          exact Or.inr (Or.inr (by simp [renderSummaryTab, hb1, hb2]))

/-- Claim C6 counterexample: an object carrying a falsy `error` field (the
empty string) renders the content grid rather than either placeholder view. -/
theorem claim_C6_counterexample :
    renderSummaryTab (some (Val.vObj [("error", Val.vStr "")]))
      = SummaryView.content (Val.vObj [("error", Val.vStr "")]) ∧
    isPlaceholderView
        (renderSummaryTab (some (Val.vObj [("error", Val.vStr "")])))
      = false :=
  ⟨rfl, rfl⟩

/-- Claim C6 witness: a missing summary renders the placeholder and a truthy
error field renders the inline error view. -/
theorem claim_C6_summary_rendering_nonfatal_witness :
    (none : Option Val) = none ∧
    renderSummaryTab none = SummaryView.noSummary ∧
    renderSummaryTab (some (Val.vObj [("error", Val.vStr "boom")]))
      = SummaryView.errorView
          ((objGet (Val.vObj [("error", Val.vStr "boom")]) "error").getD
            Val.vNull) :=
  ⟨rfl,
    (claim_C6_summary_rendering_nonfatal none).1 (Or.inl rfl),
    (claim_C6_summary_rendering_nonfatal
        (some (Val.vObj [("error", Val.vStr "boom")]))).2.1 _ rfl rfl⟩

/-- Claim C7 (corrected, spec-modelled backend): in the merged aggregate a
failed adapter A yields `status:"error"` with its message while a successful
adapter B keeps `status:"ok"` with exactly its items (failure is
non-contagious), and each client tab's visibility depends only on that
source's own entry; a non-SEC source tab is hidden exactly when its own entry
is missing/falsy or carries a truthy error field, while the SEC tab is
additionally gated on a drug search (so the claim's "hiding only the sources
whose own result carries an error" fails for SEC on a disease search). -/
theorem claim_C7_per_source_isolation (sources : List String)
    (adapters : String → AdapterOutcome) (a b m : String) (items : List Val)
    (results results' : List (String × Val)) (summary : Option Val)
    (searchType s : String)
    (ha : a ∈ sources) (hb : b ∈ sources)
    (hfa : adapters a = AdapterOutcome.fail m)
    (hob : adapters b = AdapterOutcome.ok items)
    (hs : s ≠ "summary")
    (heq : lookupField results s = lookupField results' s) :
    lookupSR (runMerge sources adapters) a
      = some ⟨"error", [], some m⟩ ∧
    lookupSR (runMerge sources adapters) b
      = some ⟨"ok", items, none⟩ ∧
    tabVisible results summary searchType s
      = tabVisible results' summary searchType s ∧
    (s ≠ "sec" →
      (tabVisible results summary searchType s = false ↔
        truthyOpt (lookupField results s) = false ∨
        truthyOpt ((lookupField results s).bind (fun v => objGet v "error"))
          = true)) ∧
    tabVisible results summary searchType "sec"
      = ((searchType == "drug") && srcTabVisible results "sec") := by
  have hsec : ¬ ("sec" : String) = "summary" := by decide
  refine ⟨?_, ?_, ?_, ?_, ?_⟩
  · rw [lookupSR_runMerge sources adapters a ha, hfa]; rfl
  · rw [lookupSR_runMerge sources adapters b hb, hob]; rfl
  · by_cases h2 : s = "sec"
    · subst h2
      simp [tabVisible, hsec, srcTabVisible, heq]
    · simp [tabVisible, hs, h2, srcTabVisible, heq]
  · intro h2
    simp only [tabVisible, if_neg hs, if_neg h2, srcTabVisible]
    cases hx : truthyOpt (lookupField results s) <;>
      cases hy : truthyOpt
          ((lookupField results s).bind fun v => objGet v "error") <;>
        simp [hx, hy]
  · simp [tabVisible, hsec]

/-- Claim C7 counterexample: a present, truthy, error-free SEC entry is
nevertheless hidden on a disease search, so tabs are not hidden only for
sources whose own result carries an error. -/
theorem claim_C7_counterexample :
    tabVisible [("sec", Val.vArr [Val.vStr "f"])] none "disease" "sec"
      = false ∧
    truthyOpt (lookupField [("sec", Val.vArr [Val.vStr "f"])] "sec") = true ∧
    truthyOpt ((lookupField [("sec", Val.vArr [Val.vStr "f"])] "sec").bind
        (fun v => objGet v "error")) = false :=
  ⟨rfl, rfl, rfl⟩

/-- Claim C7 witness: concrete two-source run with one failing adapter. -/
theorem claim_C7_per_source_isolation_witness :
    ("fda" ∈ (["fda", "sec"] : List String)) ∧
    ("sec" ∈ (["fda", "sec"] : List String)) ∧
    ((fun x => if x = "fda" then AdapterOutcome.fail "boom"
        else AdapterOutcome.ok [Val.vStr "it"]) "fda"
      = AdapterOutcome.fail "boom") ∧
    ((fun x => if x = "fda" then AdapterOutcome.fail "boom"
        else AdapterOutcome.ok [Val.vStr "it"]) "sec"
      = AdapterOutcome.ok [Val.vStr "it"]) ∧
    ("fda" : String) ≠ "summary" ∧
    (lookupSR (runMerge ["fda", "sec"]
          (fun x => if x = "fda" then AdapterOutcome.fail "boom"
            else AdapterOutcome.ok [Val.vStr "it"])) "fda"
        = some ⟨"error", [], some "boom"⟩ ∧
      lookupSR (runMerge ["fda", "sec"]
          (fun x => if x = "fda" then AdapterOutcome.fail "boom"
            else AdapterOutcome.ok [Val.vStr "it"])) "sec"
        = some ⟨"ok", [Val.vStr "it"], none⟩ ∧
      tabVisible [("fda", Val.vObj [("error", Val.vStr "boom")])] none "drug"
          "fda"
        = tabVisible [("fda", Val.vObj [("error", Val.vStr "boom")])] none
            "drug" "fda" ∧
      (("fda" : String) ≠ "sec" →
        (tabVisible [("fda", Val.vObj [("error", Val.vStr "boom")])] none
            "drug" "fda" = false ↔
          truthyOpt (lookupField
              [("fda", Val.vObj [("error", Val.vStr "boom")])] "fda") = false ∨
          truthyOpt ((lookupField
              [("fda", Val.vObj [("error", Val.vStr "boom")])] "fda").bind
              (fun v => objGet v "error")) = true)) ∧
      tabVisible [("fda", Val.vObj [("error", Val.vStr "boom")])] none "drug"
          "sec"
        = (("drug" == "drug")
            && srcTabVisible [("fda", Val.vObj [("error", Val.vStr "boom")])]
                "sec")) :=
  ⟨by simp, by simp, rfl, rfl, by decide,
    claim_C7_per_source_isolation ["fda", "sec"]
      (fun x => if x = "fda" then AdapterOutcome.fail "boom"
        else AdapterOutcome.ok [Val.vStr "it"])
      "fda" "sec" "boom" [Val.vStr "it"]
      [("fda", Val.vObj [("error", Val.vStr "boom")])]
      [("fda", Val.vObj [("error", Val.vStr "boom")])]
      none "drug" "fda" (by simp) (by simp) rfl rfl (by decide) rfl⟩

/-- Claim C9 (confirmed): the SEC tab is visible only for drug searches; for
any non-drug search type it is hidden in both dashboard variants, whatever
the results and summary contain. -/
theorem claim_C9_sec_tab_drug_only (results : List (String × Val))
    (summary : Option Val) (searchType : String) (h : searchType ≠ "drug") :
    tabVisible results summary searchType "sec" = false ∧
    hasSEC results searchType = false ∧
    "sec" ∉ availableTabs results summary searchType := by
  have hbeq : (searchType == "drug") = false := beq_eq_false_iff_ne.mpr h
  have hsec : ¬ ("sec" : String) = "summary" := by decide
  have h1 : tabVisible results summary searchType "sec" = false := by
    simp [tabVisible, hsec, hbeq]
  refine ⟨h1, ?_, ?_⟩
  · simp [hasSEC, hbeq]
  · simp [availableTabs, List.mem_filter, h1]

/-- Claim C9 witness: non-empty, error-free SEC data is hidden on a disease
search. -/
theorem claim_C9_sec_tab_drug_only_witness :
    ("disease" : String) ≠ "drug" ∧
    (tabVisible [("sec", Val.vArr [Val.vStr "x"])] none "disease" "sec"
        = false ∧
      hasSEC [("sec", Val.vArr [Val.vStr "x"])] "disease" = false ∧
      "sec" ∉ availableTabs [("sec", Val.vArr [Val.vStr "x"])] none
        "disease") :=
  ⟨by decide, claim_C9_sec_tab_drug_only _ _ _ (by decide)⟩

end AppPro
